import Mathlib

/-!
Formal model of the Lemonade Tycoon simulator (`main.py`): the game state,
the HTTP mutation endpoints and the start-day simulation, together with
theorems about the documented properties.

Modelling conventions:
* Python floats holding money, prices, ratios and probabilities are modelled
  as exact rationals (`ℚ`); IEEE rounding is out of scope.
* The `random` module is modelled as a stream of draw results: each primitive
  call (`random.random()`, `random.randint`, `random.uniform`,
  `random.choice`) consumes exactly one stream element, in program order.
* CSV persistence (`save_to_csv` / `load_from_csv`) only mirrors the in-memory
  state and is not modelled; the in-memory state is authoritative.
-/

/-- Python `int()` applied to a number: truncation toward zero. -/
def pyInt (q : ℚ) : ℤ := if 0 ≤ q then ⌊q⌋ else ⌈q⌉

/-- Python `round(x, 2)`: round half to even on the second decimal digit. -/
def round2 (x : ℚ) : ℚ :=
  let y := x * 100
  let f := ⌊y⌋
  let r := y - (f : ℚ)
  let n : ℤ :=
    if r > 1/2 then f + 1
    else if r < 1/2 then f
    else if f % 2 = 0 then f else f + 1
  (n : ℚ) / 100

inductive Weather
  | sunny
  | cloudy
  | rainy
  | hot
deriving DecidableEq

inductive EventType
  | critic
  | celebrity
  | inspector
  | rival
  | rush
  | outage
  | festival
deriving DecidableEq

structure EventInfo where
  name : String
  emoji : String
  etype : EventType
  chance : ℚ
deriving DecidableEq

/-- The `EVENTS` catalog, in source order (chances 0.15, 0.08, 0.12, 0.10,
0.20, 0.08, 0.10). -/
def EVENTS : List EventInfo :=
  [⟨"Food Critic Visit", "📰", .critic, 3/20⟩,
   ⟨"Celebrity Spotted", "⭐", .celebrity, 2/25⟩,
   ⟨"Health Inspector", "🔍", .inspector, 3/25⟩,
   ⟨"Rival Stand Opens", "🏪", .rival, 1/10⟩,
   ⟨"School Bus Arrives", "🚌", .rush, 1/5⟩,
   ⟨"Power Outage", "⚡", .outage, 2/25⟩,
   ⟨"Festival Nearby", "🎪", .festival, 1/10⟩]

/-- The `COSTS` dict: unit cost of a known item, `none` for an unknown key. -/
def COSTS (item : String) : Option ℚ :=
  if item = "lemons" then some (1/2)
  else if item = "sugar" then some (1/5)
  else if item = "cups" then some (1/10)
  else if item = "ice" then some (1/20)
  else none

/- Upgrade tier effect tables from `UPGRADES`.  Python indexes the tier lists
directly, raising `IndexError` outside `0..tiers-1`; the `getD` default below
is never reached for a valid tier index (the `.get(key, default)` defaults of
the source are 1.0 for quality/appeal and 0 for boost). -/

def juicerQualityOf (i : ℕ) : ℚ := [(1 : ℚ), 6/5, 3/2].getD i 1

def standAppealOf (i : ℕ) : ℚ := [(1 : ℚ), 13/10, 2].getD i 1

def standRepCap (i : ℕ) : ℚ := [(30 : ℚ), 60, 100].getD i 30

def fridgeIceSaveOf (i : ℕ) : ℚ := [(0 : ℚ), 2/5, 4/5].getD i 0

def marketingBoostOf (i : ℕ) : ℚ := [(0 : ℚ), 5, 15, 30].getD i 0

/-- Per-track tier cost lists from `UPGRADES`, `none` for an unknown track. -/
def UPGRADE_COSTS (t : String) : Option (List ℚ) :=
  if t = "juicer" then some [0, 50, 200]
  else if t = "stand" then some [0, 100, 500]
  else if t = "fridge" then some [0, 150, 400]
  else if t = "marketing" then some [0, 75, 300, 800]
  else none

/-- One-time cash reward of each `ACHIEVEMENTS` entry (0 for an unknown id;
Python would only look the reward up for ids its `earned` chain knows). -/
def achievementReward (id : String) : ℚ :=
  if id = "first_sale" then 5
  else if id = "hundred_sales" then 50
  else if id = "thousand_sales" then 200
  else if id = "profit_master" then 100
  else if id = "five_star" then 150
  else if id = "tycoon" then 300
  else if id = "perfect_day" then 75
  else if id = "ice_king" then 50
  else 0

/-- One entry of `game.history` (amounts stored already rounded to cents). -/
structure HistoryEntry where
  day : ℕ
  cash : ℚ
  revenue : ℚ
  netProfit : ℚ
  sales : ℕ
deriving DecidableEq

/-- `GameState`: the single mutable game record.  Inventory counts are `ℤ`
because the buy endpoint performs unvalidated integer arithmetic on them.
The recipe fields model `recipe["lemon_ratio"]` / `recipe["sugar_ratio"]`. -/
structure GameState where
  cash : ℚ
  day : ℕ
  reputation : ℚ
  stars : ℚ
  lemons : ℤ
  sugar : ℤ
  cups : ℤ
  ice : ℤ
  price : ℚ
  recipeLemon : ℚ
  recipeSugar : ℚ
  juicer : ℕ
  stand : ℕ
  fridge : ℕ
  marketing : ℕ
  totalSales : ℕ
  totalRevenue : ℚ
  bestDay : ℕ
  perfectDays : ℕ
  achievements : List String
  history : List HistoryEntry
  weather : Weather
  nextWeather : Weather
  activeEvent : Option EventInfo
  streak : ℕ
deriving DecidableEq

/-- The defaults set by `GameState.__init__` (no CSV snapshot present) and
re-assigned by `GameState.reset`. -/
def initGameState : GameState :=
  { cash := 25, day := 1, reputation := 10, stars := 1,
    lemons := 5, sugar := 5, cups := 10, ice := 0,
    price := 1, recipeLemon := 1, recipeSugar := 1,
    juicer := 0, stand := 0, fridge := 0, marketing := 0,
    totalSales := 0, totalRevenue := 0, bestDay := 0, perfectDays := 0,
    achievements := [], history := [], weather := .sunny, nextWeather := .cloudy,
    activeEvent := none, streak := 0 }

/-- Seeded random source: an immutable stream of draw results plus the
position of the next draw. -/
structure Rng where
  stream : ℕ → ℚ
  pos : ℕ

/-- Consume one draw (the result of one `random.random()`-style call). -/
def Rng.next (r : Rng) : ℚ × Rng := (r.stream r.pos, ⟨r.stream, r.pos + 1⟩)

/-- `random.randint(a, b)`: one draw mapped affinely onto `[a, b]`. -/
def randInt (r : Rng) (a b : ℤ) : ℤ × Rng :=
  let v := r.next
  (a + ⌊v.1 * ((b - a + 1 : ℤ) : ℚ)⌋, v.2)

/-- `random.choice(["sunny", "cloudy", "rainy", "hot"])`: one draw. -/
def randChoiceWeather (r : Rng) : Weather × Rng :=
  let v := r.next
  ([Weather.sunny, .cloudy, .rainy, .hot].getD (⌊v.1 * 4⌋).toNat .sunny, v.2)

/-- `GameState.check_achievement`: returns the awarded achievement id (the
source returns the catalog entry) and the updated state.  The `earned` chain
covers only `first_sale`, `hundred_sales`, `thousand_sales`, `tycoon` and
`five_star`, exactly as in the source. -/
def checkAchievement (s : GameState) (id : String) : Option String × GameState :=
  if id ∈ s.achievements then (none, s)
  else
    let earned : Bool :=
      if id = "first_sale" then decide (1 ≤ s.totalSales)
      else if id = "hundred_sales" then decide (100 ≤ s.totalSales)
      else if id = "thousand_sales" then decide (1000 ≤ s.totalSales)
      else if id = "tycoon" then decide (1000 ≤ s.cash)
      else if id = "five_star" then decide (100 ≤ s.reputation)
      else false
    if earned then
      (some id, { s with achievements := s.achievements ++ [id],
                         cash := s.cash + achievementReward id })
    else (none, s)

/-- The achievement loop of `start_day`: fold `check_achievement` over a list
of ids, collecting the newly earned ones in order. -/
def checkAchList (s : GameState) : List String → List String × GameState
  | [] => ([], s)
  | id :: rest =>
    let c := checkAchievement s id
    let tail := checkAchList c.2 rest
    (match c.1 with
     | some a => a :: tail.1
     | none => tail.1, tail.2)

/-- Outcome of a mutation endpoint: success, a structured decline with a
message (`{"success": False, "message": ...}`), or a raised
`HTTPException(status_code, detail)`. -/
inductive ApiOutcome
  | ok
  | declined (message : String)
  | httpError (status : ℕ) (detail : String)
deriving DecidableEq

/-- Whether an outcome is a structured decline. -/
def ApiOutcome.declinedQ : ApiOutcome → Bool
  | .declined _ => true
  | _ => false

/-- `POST /api/price`: accept a price within `[0.01, 10.00]`, else decline. -/
def setPrice (s : GameState) (pr : ℚ) : ApiOutcome × GameState :=
  if 1/100 ≤ pr ∧ pr ≤ 10 then (.ok, { s with price := pr })
  else (.declined "Invalid price", s)

/-- `POST /api/recipe`: clamp both ratios into `[0.5, 1.5]`; always succeeds. -/
def setRecipe (s : GameState) (lr sr : ℚ) : ApiOutcome × GameState :=
  (.ok, { s with recipeLemon := max (1/2) (min (3/2) lr),
                 recipeSugar := max (1/2) (min (3/2) sr) })

/-- `game.inventory[item]` (0 for an unknown key, never reached after the
`COSTS` membership check). -/
def invOf (s : GameState) (item : String) : ℤ :=
  if item = "lemons" then s.lemons
  else if item = "sugar" then s.sugar
  else if item = "cups" then s.cups
  else if item = "ice" then s.ice
  else 0

/-- `game.inventory[item] += quantity`. -/
def addItem (s : GameState) (item : String) (q : ℤ) : GameState :=
  if item = "lemons" then { s with lemons := s.lemons + q }
  else if item = "sugar" then { s with sugar := s.sugar + q }
  else if item = "cups" then { s with cups := s.cups + q }
  else if item = "ice" then { s with ice := s.ice + q }
  else s

/-- `POST /api/buy`: unknown item raises `HTTPException(400)`; otherwise the
purchase succeeds whenever `cash >= cost` (the quantity is any `int`, it is
never validated), else a structured decline. -/
def buyItem (s : GameState) (item : String) (qty : ℤ) : ApiOutcome × GameState :=
  match COSTS item with
  | none => (.httpError 400 "Invalid item", s)
  | some c =>
    let cost := c * (qty : ℚ)
    if cost ≤ s.cash then
      (.ok, addItem { s with cash := s.cash - cost } item qty)
    else (.declined "Not enough cash!", s)

/-- `game.upgrades[u_type]` (0 for an unknown key, never reached after the
`UPGRADES` membership check). -/
def upgradeLevel (s : GameState) (t : String) : ℕ :=
  if t = "juicer" then s.juicer
  else if t = "stand" then s.stand
  else if t = "fridge" then s.fridge
  else if t = "marketing" then s.marketing
  else 0

/-- `game.upgrades[u_type] = next_level_idx`. -/
def setUpgradeLevel (s : GameState) (t : String) (lvl : ℕ) : GameState :=
  if t = "juicer" then { s with juicer := lvl }
  else if t = "stand" then { s with stand := lvl }
  else if t = "fridge" then { s with fridge := lvl }
  else if t = "marketing" then { s with marketing := lvl }
  else s

/-- `POST /api/upgrade`: unknown type raises `HTTPException(400)`; a maxed
track or insufficient cash yields a structured decline. -/
def buyUpgrade (s : GameState) (t : String) : ApiOutcome × GameState :=
  match UPGRADE_COSTS t with
  | none => (.httpError 400 "Invalid upgrade type", s)
  | some tiers =>
    let cur := upgradeLevel s t
    if tiers.length - 1 ≤ cur then (.declined "Max level reached", s)
    else
      let cost := tiers.getD (cur + 1) 0
      if cost ≤ s.cash then
        (.ok, setUpgradeLevel { s with cash := s.cash - cost } t (cur + 1))
      else (.declined "Not enough cash!", s)

/-- `POST /api/reset`: reinitialize every field to the defaults. -/
def resetGame (_s : GameState) : GameState := initGameState

/-- Weather multiplier table of `start_day`. -/
def weatherMod : Weather → ℚ
  | .sunny => 1
  | .cloudy => 7/10
  | .rainy => 2/5
  | .hot => 9/5

/-- The event roll of `start_day`: walk the catalog in order, drawing once per
event, and stop at the first event whose draw is below its chance. -/
def rollEvent : List EventInfo → Rng → Option EventInfo × Rng
  | [], r => (none, r)
  | e :: rest, r =>
    let v := r.next
    if v.1 < e.chance then (some e, v.2) else rollEvent rest v.2

/-- Event customer-count multiplier. -/
def eventCustomerMod : Option EventInfo → ℚ
  | some e =>
    match e.etype with
    | .rush => 2
    | .festival => 3/2
    | .rival => 3/5
    | _ => 1
  | none => 1

/-- Event price-tolerance multiplier. -/
def eventPriceMod : Option EventInfo → ℚ
  | some e => match e.etype with | .festival => 6/5 | _ => 1
  | none => 1

/-- `special_sales` set by the celebrity event. -/
def eventSpecialSales : Option EventInfo → ℕ
  | some e => match e.etype with | .celebrity => 1 | _ => 0
  | none => 0

/-- `event_message` (empty for critic/inspector and for no event). -/
def eventMessageOf (s : GameState) : Option EventInfo → String
  | some e =>
    match e.etype with
    | .rush => "School bus brought tons of customers!"
    | .festival => "Festival crowd loves premium lemonade!"
    | .rival => "Rival stand stealing customers!"
    | .celebrity => "Celebrity bought your lemonade!"
    | .outage => if 0 < s.fridge then "Your fridge saved the day!"
                 else "Power outage! All ice melted!"
    | _ => ""
  | none => ""

/-- State side effects of the triggered event: `game.active_event = event`,
and the power outage wipes the ice inventory unless a fridge is owned. -/
def applyEvent (s : GameState) : Option EventInfo → GameState
  | none => s
  | some e =>
    match e.etype with
    | .outage =>
      if 0 < s.fridge then { s with activeEvent := some e }
      else { s with activeEvent := some e, ice := 0 }
    | _ => { s with activeEvent := some e }

/-- One line of the simulation log (the source JSON key for `kind` is
`"type"`). -/
structure LogEntry where
  tick : ℕ
  kind : String
  msg : String
  price : Option ℚ
deriving DecidableEq

/-- The loop-invariant inputs of the customer loop. -/
structure SimParams where
  weather : Weather
  price : ℚ
  reputation : ℚ
  quality : ℚ
  priceMod : ℚ
deriving DecidableEq

/-- The mutable accumulator of the customer loop. -/
structure SimAcc where
  lemons : ℤ
  sugar : ℤ
  cups : ℤ
  ice : ℤ
  sold : ℕ
  missed : ℕ
  revenue : ℚ
  cogs : ℚ
  log : List LogEntry
  rng : Rng
  tick : ℕ

/-- One iteration of the customer loop of `start_day`.  Draw order matches
the source: the ice-preference draw (skipped in hot weather), then the
`random.uniform(0.80, 2.00)` willingness-to-pay draw, then (only when ice is
wanted but out of stock) the walk-away draw. -/
def customerStep (p : SimParams) (a : SimAcc) : SimAcc :=
  let i := a.tick
  if 1 ≤ a.lemons ∧ 1 ≤ a.sugar ∧ 1 ≤ a.cups then
    let w := if p.weather = .hot then ((true : Bool), a.rng)
             else
               let v := a.rng.next
               (decide (v.1 > 3/5), v.2)
    let u := w.2.next
    let mp0 := (4/5 + u.1 * (6/5)) * p.quality * p.priceMod
    let mp1 := if p.weather = .hot then mp0 + 1/2 else mp0
    let maxPrice := if p.reputation > 60 then mp1 + 2/5 else mp1
    if w.1 ∧ ¬ (1 ≤ a.ice) then
      let v2 := u.2.next
      if v2.1 > 3/5 then
        { a with missed := a.missed + 1,
                 log := a.log ++ [⟨i, "miss", "❌ No ice!", none⟩],
                 rng := v2.2, tick := i + 1 }
      else
        { a with sold := a.sold + 1,
                 lemons := a.lemons - 1, sugar := a.sugar - 1, cups := a.cups - 1,
                 revenue := a.revenue + p.price * (4/5),
                 cogs := a.cogs + (1/2 + 1/5 + 1/10),
                 log := a.log ++ [⟨i, "sale", "😐 Warm sale", some (p.price * (4/5))⟩],
                 rng := v2.2, tick := i + 1 }
    else if p.price > maxPrice then
      { a with missed := a.missed + 1,
               log := a.log ++ [⟨i, "miss", "💸 Too expensive", none⟩],
               rng := u.2, tick := i + 1 }
    else
      let salePrice := if p.quality > 6/5 then p.price * (11/10) else p.price
      let msg := if p.quality > 6/5 then "⭐ PREMIUM sale!" else "✅ Sold!"
      let a1 := { a with sold := a.sold + 1,
                         lemons := a.lemons - 1, sugar := a.sugar - 1, cups := a.cups - 1,
                         revenue := a.revenue + salePrice,
                         cogs := a.cogs + (1/2 + 1/5 + 1/10),
                         log := a.log ++ [⟨i, "sale", msg, some salePrice⟩],
                         rng := u.2, tick := i + 1 }
      if 1 ≤ a.ice then { a1 with ice := a1.ice - 1, cogs := a1.cogs + 1/20 }
      else a1
  else
    { a with missed := a.missed + 1,
             log := a.log ++ [⟨i, "miss", "⛔ SOLD OUT", none⟩],
             tick := i + 1 }

/-- `for i in range(potential_customers)`: iterate `customerStep`. -/
def simCustomers (p : SimParams) : ℕ → SimAcc → SimAcc
  | 0, a => a
  | n + 1, a => simCustomers p n (customerStep p a)

/-- `conversion_rate = sold / potential if potential > 0 else 0`. -/
def dayConversionRate (sold potential : ℕ) : ℚ :=
  if 0 < potential then (sold : ℚ) / (potential : ℚ) else 0

/-- `ice_melted_count = int(ice * (1 - save_rate))`. -/
def iceMeltCount (ice : ℤ) (fridge : ℕ) : ℤ :=
  pyInt ((ice : ℚ) * (1 - fridgeIceSaveOf fridge))

/-- The reputation-change roll of `start_day` (with its `perfect_days`
increment and `check_achievement("perfect_day")` call on a perfect day). -/
def repRoll (conv : ℚ) (s : GameState) (r : Rng) : ℤ × GameState × Rng :=
  if 1 ≤ conv then
    let d := randInt r 8 12
    let s1 := { s with perfectDays := s.perfectDays + 1 }
    (d.1, (checkAchievement s1 "perfect_day").2, d.2)
  else if 3/4 < conv then
    let d := randInt r 3 6
    (d.1, s, d.2)
  else if conv < 2/5 then
    let d := randInt r (-8) (-3)
    (d.1, s, d.2)
  else (0, s, r)

/-- Everything `start_day` computes before the customer loop: event roll and
side effects, overall quality, and the potential customer count. -/
structure Setup where
  ev : Option EventInfo
  eventMessage : String
  priceMod : ℚ
  specialSales : ℕ
  s1 : GameState
  quality : ℚ
  potential : ℕ
  rng : Rng

/-- The pre-loop phase of `start_day`. -/
def daySetup (s : GameState) (r : Rng) : Setup :=
  let er := rollEvent EVENTS r
  let ev := er.1
  let s1 := applyEvent s ev
  let quality := ((s1.recipeLemon + s1.recipeSugar) / 2) * juicerQualityOf s1.juicer
  let bd := randInt er.2 15 35
  let potential :=
    (pyInt ((bd.1 : ℚ) * weatherMod s1.weather * (1 + s1.reputation / 100) *
      standAppealOf s1.stand * eventCustomerMod ev *
      (1 + marketingBoostOf s1.marketing / 100))).toNat
  { ev := ev, eventMessage := eventMessageOf s ev,
    priceMod := eventPriceMod ev, specialSales := eventSpecialSales ev,
    s1 := s1, quality := quality, potential := potential, rng := bd.2 }

/-- The potential customer count drawn for the day. -/
def potentialCustomers (s : GameState) (r : Rng) : ℕ := (daySetup s r).potential

/-- The day summary returned by `POST /api/start-day`. -/
structure DaySummary where
  sold : ℕ
  missed : ℕ
  revenue : ℚ
  cogs : ℚ
  iceLoss : ℚ
  netProfit : ℚ
  repChange : ℤ
  eventBonus : Option String
deriving DecidableEq

/-- The full `POST /api/start-day` response: log, summary, resulting state,
newly earned achievement ids, and the triggered event (the JSON projects its
name, emoji and effect message). -/
structure DayResponse where
  log : List LogEntry
  summary : DaySummary
  state : GameState
  achievementsEarned : List String
  event : Option EventInfo

/-- The customer loop of `start_day`, run on the post-event state with fresh
counters. -/
def dayAcc (s : GameState) (r : Rng) : SimAcc :=
  simCustomers
    ⟨(daySetup s r).s1.weather, (daySetup s r).s1.price, (daySetup s r).s1.reputation,
      (daySetup s r).quality, (daySetup s r).priceMod⟩
    (daySetup s r).potential
    ⟨(daySetup s r).s1.lemons, (daySetup s r).s1.sugar, (daySetup s r).s1.cups,
      (daySetup s r).s1.ice, 0, 0, 0, 0, [], (daySetup s r).rng, 0⟩

/-- Everything `start_day` does between the customer loop and the
achievement checks, in source order: celebrity bonus, conversion rate,
reputation roll and clamp, star rating, ice melt, financials, streak, stats,
history, and the day/weather advance.  Returns the resulting state, the
remaining rng, the reputation change, the net profit and the ice loss
cost. -/
def dayStateChain (st : Setup) (A : SimAcc) : GameState × Rng × ℤ × ℚ × ℚ :=
  let revenue := if 0 < st.specialSales then A.revenue + 50 else A.revenue
  let conv := dayConversionRate A.sold st.potential
  let s2 := { st.s1 with lemons := A.lemons, sugar := A.sugar, cups := A.cups, ice := A.ice }
  let rr := repRoll conv s2 A.rng
  let repChange :=
    if 13/10 < st.quality then rr.1 + 3
    else if st.quality < 4/5 then rr.1 - 3
    else rr.1
  let s3 := rr.2.1
  let newRep := max 0 (min (standRepCap s3.stand) (s3.reputation + (repChange : ℚ)))
  let s4 := { s3 with reputation := newRep, stars := 1 + newRep / 25 }
  let melted := iceMeltCount s4.ice s4.fridge
  let s5 := { s4 with ice := s4.ice - melted }
  let iceLossCost := (melted : ℚ) * (1/20)
  let netProfit := revenue - A.cogs - iceLossCost
  let s6 := { s5 with cash := s5.cash + revenue }
  let s7 := { s6 with streak := if 0 < netProfit then s6.streak + 1 else 0 }
  let s8 := { s7 with totalSales := s7.totalSales + A.sold,
                      totalRevenue := s7.totalRevenue + revenue,
                      bestDay := if s7.bestDay < A.sold then A.sold else s7.bestDay }
  let s9 := { s8 with history :=
    s8.history ++ [HistoryEntry.mk s8.day (round2 s8.cash) (round2 revenue) (round2 netProfit) A.sold] }
  let nw := randChoiceWeather rr.2.2
  let s10 := { s9 with day := s9.day + 1, weather := s9.nextWeather, nextWeather := nw.1 }
  (s10, nw.2, repChange, netProfit, iceLossCost)

/-- The id list of the achievement loop of `start_day`, in source order. -/
def achIds : List String :=
  ["first_sale", "hundred_sales", "thousand_sales", "profit_master", "tycoon", "five_star"]

/-- The achievement phase at the end of `start_day`: the fixed id loop, then
the `net_profit >= 100` profit-master re-check. -/
def dayAchPhase (s10 : GameState) (netProfit : ℚ) : List String × GameState :=
  if (100 : ℚ) ≤ netProfit then
    (match (checkAchievement (checkAchList s10 achIds).2 "profit_master").1 with
     | some a => (checkAchList s10 achIds).1 ++ [a]
     | none => (checkAchList s10 achIds).1,
     (checkAchievement (checkAchList s10 achIds).2 "profit_master").2)
  else checkAchList s10 achIds

/-- `POST /api/start-day`: the full day simulation, step for step in source
order. -/
def startDay (s : GameState) (r : Rng) : DayResponse :=
  let st := daySetup s r
  let A := dayAcc s r
  let revenue := if 0 < st.specialSales then A.revenue + 50 else A.revenue
  let log := if 0 < st.specialSales then
      A.log ++ [⟨A.log.length, "special", "🌟 CELEBRITY TIP!", some 50⟩]
    else A.log
  let ch := dayStateChain st A
  let ach2 := dayAchPhase ch.1 ch.2.2.2.1
  { log := log,
    summary := { sold := A.sold, missed := A.missed, revenue := round2 revenue,
                 cogs := round2 A.cogs, iceLoss := round2 ch.2.2.2.2,
                 netProfit := round2 ch.2.2.2.1, repChange := ch.2.2.1,
                 eventBonus := if st.eventMessage = "" then none else some st.eventMessage },
    state := ach2.2,
    achievementsEarned := ach2.1,
    event := st.ev }

/-! ### Helper lemmas -/

theorem pyInt_eq_floor (q : ℚ) (h : 0 ≤ q) : pyInt q = ⌊q⌋ := if_pos h

/-- The `earned` chain of `check_achievement` has no case for
`"perfect_day"`, so the call is a no-op on every state. -/
theorem checkAch_perfect_noop (s : GameState) :
    checkAchievement s "perfect_day" = (none, s) := by
  simp only [checkAchievement]
  split
  · rfl
  · simp

/-- The `earned` chain of `check_achievement` has no case for
`"profit_master"`, so the call is a no-op on every state. -/
theorem checkAch_profit_noop (s : GameState) :
    checkAchievement s "profit_master" = (none, s) := by
  simp only [checkAchievement]
  split
  · rfl
  · simp

theorem checkAch_day (s : GameState) (id : String) :
    ((checkAchievement s id).2).day = s.day := by
  simp only [checkAchievement]
  repeat' split
  all_goals rfl

theorem checkAch_reputation (s : GameState) (id : String) :
    ((checkAchievement s id).2).reputation = s.reputation := by
  simp only [checkAchievement]
  repeat' split
  all_goals rfl

theorem checkAch_activeEvent (s : GameState) (id : String) :
    ((checkAchievement s id).2).activeEvent = s.activeEvent := by
  simp only [checkAchievement]
  repeat' split
  all_goals rfl

theorem checkAch_mem (s : GameState) (id idq : String) (h : idq ≠ id) :
    (idq ∈ ((checkAchievement s id).2).achievements) ↔ idq ∈ s.achievements := by
  simp only [checkAchievement]
  repeat' split
  all_goals first | rfl | simp [List.mem_append, List.mem_singleton, h]

theorem checkAchList_day (ids : List String) : ∀ s : GameState,
    ((checkAchList s ids).2).day = s.day := by
  induction ids with
  | nil => intro s; rfl
  | cons id rest ih =>
    intro s
    simp only [checkAchList]
    rw [ih, checkAch_day]

theorem checkAchList_reputation (ids : List String) : ∀ s : GameState,
    ((checkAchList s ids).2).reputation = s.reputation := by
  induction ids with
  | nil => intro s; rfl
  | cons id rest ih =>
    intro s
    simp only [checkAchList]
    rw [ih, checkAch_reputation]

theorem checkAchList_activeEvent (ids : List String) : ∀ s : GameState,
    ((checkAchList s ids).2).activeEvent = s.activeEvent := by
  induction ids with
  | nil => intro s; rfl
  | cons id rest ih =>
    intro s
    simp only [checkAchList]
    rw [ih, checkAch_activeEvent]

theorem checkAchList_mem_of_noop (idq : String)
    (hno : ∀ x : GameState, checkAchievement x idq = (none, x)) (ids : List String) :
    ∀ s : GameState,
    (idq ∈ ((checkAchList s ids).2).achievements) ↔ idq ∈ s.achievements := by
  induction ids with
  | nil => intro s; exact Iff.rfl
  | cons id rest ih =>
    intro s
    simp only [checkAchList]
    by_cases hid : id = idq
    · subst hid
      rw [hno s]
      exact ih s
    · rw [ih]
      exact checkAch_mem s id idq (fun hq => hid hq.symm)

theorem repRoll_state (conv : ℚ) (s : GameState) (r : Rng) :
    (repRoll conv s r).2.1
      = if 1 ≤ conv then { s with perfectDays := s.perfectDays + 1 } else s := by
  simp only [repRoll]
  by_cases h1 : 1 ≤ conv
  · simp only [if_pos h1, checkAch_perfect_noop]
  · simp only [if_neg h1]
    by_cases h2 : 3/4 < conv
    · simp only [if_pos h2]
    · simp only [if_neg h2]
      by_cases h3 : conv < 2/5
      · simp only [if_pos h3]
      · simp only [if_neg h3]

theorem repRoll_achievements (conv : ℚ) (s : GameState) (r : Rng) :
    ((repRoll conv s r).2.1).achievements = s.achievements := by
  rw [repRoll_state]; split <;> rfl

theorem repRoll_day (conv : ℚ) (s : GameState) (r : Rng) :
    ((repRoll conv s r).2.1).day = s.day := by
  rw [repRoll_state]; split <;> rfl

theorem repRoll_stand (conv : ℚ) (s : GameState) (r : Rng) :
    ((repRoll conv s r).2.1).stand = s.stand := by
  rw [repRoll_state]; split <;> rfl

theorem repRoll_reputation (conv : ℚ) (s : GameState) (r : Rng) :
    ((repRoll conv s r).2.1).reputation = s.reputation := by
  rw [repRoll_state]; split <;> rfl

theorem repRoll_activeEvent (conv : ℚ) (s : GameState) (r : Rng) :
    ((repRoll conv s r).2.1).activeEvent = s.activeEvent := by
  rw [repRoll_state]; split <;> rfl

theorem applyEvent_achievements (s : GameState) (ev : Option EventInfo) :
    (applyEvent s ev).achievements = s.achievements := by
  cases ev with
  | none => rfl
  | some e =>
    obtain ⟨n, em, ty, ch⟩ := e
    cases ty <;> first | rfl | (simp only [applyEvent]; split <;> rfl)

theorem applyEvent_day (s : GameState) (ev : Option EventInfo) :
    (applyEvent s ev).day = s.day := by
  cases ev with
  | none => rfl
  | some e =>
    obtain ⟨n, em, ty, ch⟩ := e
    cases ty <;> first | rfl | (simp only [applyEvent]; split <;> rfl)

theorem applyEvent_stand (s : GameState) (ev : Option EventInfo) :
    (applyEvent s ev).stand = s.stand := by
  cases ev with
  | none => rfl
  | some e =>
    obtain ⟨n, em, ty, ch⟩ := e
    cases ty <;> first | rfl | (simp only [applyEvent]; split <;> rfl)

theorem applyEvent_activeEvent_none (s : GameState) :
    (applyEvent s none).activeEvent = s.activeEvent := rfl

theorem applyEvent_activeEvent_some (s : GameState) (e : EventInfo) :
    (applyEvent s (some e)).activeEvent = some e := by
  obtain ⟨n, em, ty, ch⟩ := e
  cases ty <;> first | rfl | (simp only [applyEvent]; split <;> rfl)

theorem daySetup_s1 (s : GameState) (r : Rng) :
    (daySetup s r).s1 = applyEvent s (rollEvent EVENTS r).1 := rfl

theorem customerStep_count (p : SimParams) (a : SimAcc) :
    (customerStep p a).sold + (customerStep p a).missed = a.sold + a.missed + 1 := by
  simp only [customerStep]
  repeat' split
  all_goals dsimp only
  all_goals omega

theorem simCustomers_count (p : SimParams) : ∀ (n : ℕ) (a : SimAcc),
    (simCustomers p n a).sold + (simCustomers p n a).missed = a.sold + a.missed + n := by
  intro n
  induction n with
  | zero => intro a; simp [simCustomers]
  | succ k ih =>
    intro a
    have h1 := customerStep_count p a
    have h2 := ih (customerStep p a)
    simp only [simCustomers]
    omega

theorem addItem_activeEvent (s : GameState) (item : String) (q : ℤ) :
    (addItem s item q).activeEvent = s.activeEvent := by
  simp only [addItem]
  repeat' split
  all_goals rfl

theorem setUpgradeLevel_activeEvent (s : GameState) (t : String) (lvl : ℕ) :
    (setUpgradeLevel s t lvl).activeEvent = s.activeEvent := by
  simp only [setUpgradeLevel]
  repeat' split
  all_goals rfl

theorem buyItem_activeEvent (s : GameState) (item : String) (qty : ℤ) :
    ((buyItem s item qty).2).activeEvent = s.activeEvent := by
  cases hc : COSTS item with
  | none => simp only [buyItem, hc]
  | some c =>
    simp only [buyItem, hc]
    split
    · rw [addItem_activeEvent]
    · rfl

theorem buyUpgrade_activeEvent (s : GameState) (t : String) :
    ((buyUpgrade s t).2).activeEvent = s.activeEvent := by
  cases hc : UPGRADE_COSTS t with
  | none => simp only [buyUpgrade, hc]
  | some tiers =>
    simp only [buyUpgrade, hc]
    split
    · rfl
    · split
      · rw [setUpgradeLevel_activeEvent]
      · rfl

theorem setPrice_activeEvent (s : GameState) (pr : ℚ) :
    ((setPrice s pr).2).activeEvent = s.activeEvent := by
  simp only [setPrice]
  split <;> rfl

/-! ### Claim theorems -/

/-- Claim C6 (confirmed): for every simulated day, the number of customers
recorded as sales plus the number recorded as misses equals the potential
customer count drawn for that day. -/
theorem claim_C6_sold_plus_missed (s : GameState) (r : Rng) :
    (startDay s r).summary.sold + (startDay s r).summary.missed
      = potentialCustomers s r := by
  have h := simCustomers_count
    ⟨(daySetup s r).s1.weather, (daySetup s r).s1.price, (daySetup s r).s1.reputation,
      (daySetup s r).quality, (daySetup s r).priceMod⟩
    (daySetup s r).potential
    ⟨(daySetup s r).s1.lemons, (daySetup s r).s1.sugar, (daySetup s r).s1.cups,
      (daySetup s r).s1.ice, 0, 0, 0, 0, [], (daySetup s r).rng, 0⟩
  have h2 : (0 : ℕ) + 0 + (daySetup s r).potential = (daySetup s r).potential := by omega
  exact h.trans h2

/-- Claim C4 (confirmed): running one simulated day twice from the same state
with the same seeded random stream yields an identical customer log, an
identical summary and an identical resulting state. -/
theorem claim_C4_reproducible (sa sb : GameState) (ra rb : Rng)
    (hs : sa = sb) (hr : ra = rb) :
    (startDay sa ra).log = (startDay sb rb).log ∧
    (startDay sa ra).summary = (startDay sb rb).summary ∧
    (startDay sa ra).state = (startDay sb rb).state := by
  subst hs
  subst hr
  exact ⟨rfl, rfl, rfl⟩

theorem claim_C4_reproducible_witness :
    (startDay initGameState ⟨fun _ => 1/2, 0⟩).log
      = (startDay initGameState ⟨fun _ => 1/2, 0⟩).log ∧
    (startDay initGameState ⟨fun _ => 1/2, 0⟩).summary
      = (startDay initGameState ⟨fun _ => 1/2, 0⟩).summary ∧
    (startDay initGameState ⟨fun _ => 1/2, 0⟩).state
      = (startDay initGameState ⟨fun _ => 1/2, 0⟩).state :=
  claim_C4_reproducible initGameState initGameState ⟨fun _ => 1/2, 0⟩ ⟨fun _ => 1/2, 0⟩ rfl rfl

/-- Claim C8 (confirmed): the end-of-day melt count equals
`floor(ice * (1 - save_rate))` and ice after melt never exceeds ice before
melt, for every nonnegative ice count and every fridge tier. -/
theorem claim_C8_ice_melt (ice : ℤ) (fridge : ℕ) (h1 : 0 ≤ ice) (h2 : fridge < 3) :
    iceMeltCount ice fridge = ⌊(ice : ℚ) * (1 - fridgeIceSaveOf fridge)⌋ ∧
    ice - iceMeltCount ice fridge ≤ ice := by
  have hsave : 0 ≤ fridgeIceSaveOf fridge ∧ fridgeIceSaveOf fridge ≤ 1 := by
    interval_cases fridge <;> norm_num [fridgeIceSaveOf]
  have hq : 0 ≤ (ice : ℚ) * (1 - fridgeIceSaveOf fridge) := by
    apply mul_nonneg
    · exact_mod_cast h1
    · linarith [hsave.2]
  refine ⟨pyInt_eq_floor _ hq, ?_⟩
  have hm : 0 ≤ iceMeltCount ice fridge := by
    rw [iceMeltCount, pyInt_eq_floor _ hq]
    exact Int.floor_nonneg.mpr hq
  omega

theorem claim_C8_ice_melt_witness :
    iceMeltCount 10 1 = ⌊(10 : ℚ) * (1 - fridgeIceSaveOf 1)⌋ ∧
    (10 : ℤ) - iceMeltCount 10 1 ≤ 10 :=
  claim_C8_ice_melt 10 1 (by norm_num) (by norm_num)

/-- Claim C3 (code bug): the buy endpoint accepts any integer quantity.  From
the initial state, `POST /buy {item: "ice", quantity: -10}` is accepted,
raises cash from 25.00 to 25.50 and drives the ice inventory to -10,
violating the nonnegative-inventory invariant. -/
theorem claim_C3_negative_quantity :
    (buyItem initGameState "ice" (-10)).1 = ApiOutcome.ok ∧
    ((buyItem initGameState "ice" (-10)).2).ice = -10 ∧
    ((buyItem initGameState "ice" (-10)).2).ice < 0 ∧
    ((buyItem initGameState "ice" (-10)).2).cash = 51/2 := by
  refine ⟨?_, ?_, ?_, ?_⟩
  all_goals (simp [buyItem, COSTS, addItem, initGameState]; try norm_num)

/-- Claim C5 (confirmed): a purchase of a known item with cash at least
`unit_cost * quantity` deducts exactly that cost and adds the quantity to the
item's inventory; a purchase whose cost exceeds available cash returns a
decline and leaves every field of the state unchanged. -/
theorem claim_C5_buy_accounting (s : GameState) (item : String) (qty : ℤ) (c : ℚ)
    (h : COSTS item = some c) :
    (c * (qty : ℚ) ≤ s.cash →
      (buyItem s item qty).1 = ApiOutcome.ok ∧
      ((buyItem s item qty).2).cash = s.cash - c * (qty : ℚ) ∧
      invOf ((buyItem s item qty).2) item = invOf s item + qty) ∧
    (s.cash < c * (qty : ℚ) →
      (buyItem s item qty).1 = ApiOutcome.declined "Not enough cash!" ∧
      (buyItem s item qty).2 = s) := by
  have hitem : item = "lemons" ∨ item = "sugar" ∨ item = "cups" ∨ item = "ice" := by
    by_contra hc
    push_neg at hc
    obtain ⟨h1, h2, h3, h4⟩ := hc
    simp [COSTS, h1, h2, h3, h4] at h
  constructor
  · intro hle
    simp only [buyItem, h]
    rw [if_pos hle]
    refine ⟨rfl, ?_, ?_⟩
    · rcases hitem with h4 | h4 | h4 | h4 <;> subst h4 <;> simp [addItem, invOf]
    · rcases hitem with h4 | h4 | h4 | h4 <;> subst h4 <;> simp [addItem, invOf]
  · intro hlt
    simp only [buyItem, h]
    rw [if_neg (not_le.mpr hlt)]
    exact ⟨rfl, rfl⟩

theorem claim_C5_buy_accounting_witness :
    ((buyItem initGameState "lemons" 10).1 = ApiOutcome.ok ∧
      ((buyItem initGameState "lemons" 10).2).cash
        = initGameState.cash - (1/2) * ((10 : ℤ) : ℚ) ∧
      invOf ((buyItem initGameState "lemons" 10).2) "lemons"
        = invOf initGameState "lemons" + 10) ∧
    ((buyItem initGameState "lemons" 1000).1 = ApiOutcome.declined "Not enough cash!" ∧
      (buyItem initGameState "lemons" 1000).2 = initGameState) := by
  constructor
  · exact (claim_C5_buy_accounting initGameState "lemons" 10 (1/2) (by norm_num [COSTS])).1
      (by norm_num [initGameState])
  · exact (claim_C5_buy_accounting initGameState "lemons" 1000 (1/2) (by norm_num [COSTS])).2
      (by norm_num [initGameState])

/-- Claim C2 (counterexample): an unknown item on POST /buy and an unknown
upgrade type on POST /upgrade are answered by raising `HTTPException(400)`,
not by the structured decline the claim requires for every validation
failure. -/
theorem claim_C2_unknown_key_counterexample :
    (buyItem initGameState "bricks" 1).1 = ApiOutcome.httpError 400 "Invalid item" ∧
    ApiOutcome.declinedQ (buyItem initGameState "bricks" 1).1 = false ∧
    (buyUpgrade initGameState "rocket").1 = ApiOutcome.httpError 400 "Invalid upgrade type" ∧
    ApiOutcome.declinedQ (buyUpgrade initGameState "rocket").1 = false := by
  decide

/-- Claim C2 as amended (proved): validation failures for insufficient cash,
an already-maxed upgrade and an out-of-bounds price return a structured
decline with a human-readable reason and leave the state unchanged; an
unknown item or upgrade key instead raises `HTTPException(400)` with a detail
message. -/
theorem claim_C2_amended_validation (s : GameState) (item t : String) (qty : ℤ)
    (pr c : ℚ) (tiers : List ℚ) :
    (COSTS item = none →
      buyItem s item qty = (ApiOutcome.httpError 400 "Invalid item", s)) ∧
    (COSTS item = some c → s.cash < c * (qty : ℚ) →
      buyItem s item qty = (ApiOutcome.declined "Not enough cash!", s)) ∧
    (UPGRADE_COSTS t = none →
      buyUpgrade s t = (ApiOutcome.httpError 400 "Invalid upgrade type", s)) ∧
    (UPGRADE_COSTS t = some tiers → tiers.length - 1 ≤ upgradeLevel s t →
      buyUpgrade s t = (ApiOutcome.declined "Max level reached", s)) ∧
    (UPGRADE_COSTS t = some tiers → upgradeLevel s t < tiers.length - 1 →
      s.cash < tiers.getD (upgradeLevel s t + 1) 0 →
      buyUpgrade s t = (ApiOutcome.declined "Not enough cash!", s)) ∧
    (¬ (1/100 ≤ pr ∧ pr ≤ 10) →
      setPrice s pr = (ApiOutcome.declined "Invalid price", s)) := by
  refine ⟨?_, ?_, ?_, ?_, ?_, ?_⟩
  · intro h
    simp only [buyItem, h]
  · intro h hlt
    simp only [buyItem, h]
    rw [if_neg (not_le.mpr hlt)]
  · intro h
    simp only [buyUpgrade, h]
  · intro h hmax
    simp only [buyUpgrade, h]
    rw [if_pos hmax]
  · intro h hcur hlt
    simp only [buyUpgrade, h]
    rw [if_neg (not_le.mpr hcur), if_neg (not_le.mpr hlt)]
  · intro h
    simp only [setPrice]
    rw [if_neg h]

theorem claim_C2_amended_validation_witness :
    buyItem initGameState "lemons" 1000 = (ApiOutcome.declined "Not enough cash!", initGameState) ∧
    buyUpgrade { initGameState with juicer := 2 } "juicer"
      = (ApiOutcome.declined "Max level reached", { initGameState with juicer := 2 }) ∧
    setPrice initGameState 50 = (ApiOutcome.declined "Invalid price", initGameState) := by
  refine ⟨?_, ?_, ?_⟩
  · exact (claim_C2_amended_validation initGameState "lemons" "x" 1000 0 (1/2) []).2.1
      (by norm_num [COSTS]) (by norm_num [initGameState])
  · exact (claim_C2_amended_validation { initGameState with juicer := 2 } "x" "juicer" 0 0 0
      [0, 50, 200]).2.2.2.1 (by norm_num [UPGRADE_COSTS])
      (by norm_num [upgradeLevel, initGameState])
  · exact (claim_C2_amended_validation initGameState "x" "x" 0 50 0 []).2.2.2.2.2
      (by norm_num)

theorem startDay_state (s : GameState) (r : Rng) :
    (startDay s r).state
      = (dayAchPhase (dayStateChain (daySetup s r) (dayAcc s r)).1
          (dayStateChain (daySetup s r) (dayAcc s r)).2.2.2.1).2 := rfl

theorem dayAchPhase_state (s10 : GameState) (np : ℚ) :
    (dayAchPhase s10 np).2 = (checkAchList s10 achIds).2 := by
  unfold dayAchPhase
  split
  · rw [checkAch_profit_noop]
  · rfl

theorem dayAchPhase_day (s10 : GameState) (np : ℚ) :
    ((dayAchPhase s10 np).2).day = s10.day := by
  rw [dayAchPhase_state, checkAchList_day]

theorem dayAchPhase_reputation (s10 : GameState) (np : ℚ) :
    ((dayAchPhase s10 np).2).reputation = s10.reputation := by
  rw [dayAchPhase_state, checkAchList_reputation]

theorem dayAchPhase_activeEvent (s10 : GameState) (np : ℚ) :
    ((dayAchPhase s10 np).2).activeEvent = s10.activeEvent := by
  rw [dayAchPhase_state, checkAchList_activeEvent]

theorem dayAchPhase_mem (id0 : String)
    (hno : ∀ x : GameState, checkAchievement x id0 = (none, x))
    (s10 : GameState) (np : ℚ) :
    (id0 ∈ ((dayAchPhase s10 np).2).achievements) ↔ id0 ∈ s10.achievements := by
  rw [dayAchPhase_state, checkAchList_mem_of_noop id0 hno]

theorem dayStateChain_day (st : Setup) (A : SimAcc) :
    ((dayStateChain st A).1).day = st.s1.day + 1 := by
  simp only [dayStateChain]
  rw [repRoll_day]

theorem dayStateChain_achievements (st : Setup) (A : SimAcc) :
    ((dayStateChain st A).1).achievements = st.s1.achievements := by
  simp only [dayStateChain]
  rw [repRoll_achievements]

theorem dayStateChain_activeEvent (st : Setup) (A : SimAcc) :
    ((dayStateChain st A).1).activeEvent = st.s1.activeEvent := by
  simp only [dayStateChain]
  rw [repRoll_activeEvent]

theorem dayStateChain_reputation (st : Setup) (A : SimAcc) : ∃ v : ℚ,
    ((dayStateChain st A).1).reputation
      = max 0 (min (standRepCap st.s1.stand) v) := by
  simp only [dayStateChain]
  rw [repRoll_stand]
  exact ⟨_, rfl⟩

/-- Claim C1 (code bug): `check_achievement` has no `earned` case for
`perfect_day` or `profit_master`, so the calls that `start_day` makes on a
perfect day and on a high-profit day always return `None`; neither
achievement is ever added to the unlocked set nor its reward paid. -/
theorem claim_C1_dead_achievements (s : GameState) (r : Rng) :
    checkAchievement s "perfect_day" = (none, s) ∧
    checkAchievement s "profit_master" = (none, s) ∧
    ("perfect_day" ∈ ((startDay s r).state).achievements
      ↔ "perfect_day" ∈ s.achievements) ∧
    ("profit_master" ∈ ((startDay s r).state).achievements
      ↔ "profit_master" ∈ s.achievements) := by
  refine ⟨checkAch_perfect_noop s, checkAch_profit_noop s, ?_, ?_⟩
  · rw [startDay_state, dayAchPhase_mem "perfect_day" checkAch_perfect_noop,
      dayStateChain_achievements, daySetup_s1, applyEvent_achievements]
  · rw [startDay_state, dayAchPhase_mem "profit_master" checkAch_profit_noop,
      dayStateChain_achievements, daySetup_s1, applyEvent_achievements]

/-- Claim C7 (confirmed): for every input reputation value and every outcome
of the random draws, the reputation after a simulated day lies within 0 and
the rep_cap of the current stand upgrade tier. -/
theorem claim_C7_reputation_clamped (s : GameState) (r : Rng) (h : s.stand < 3) :
    0 ≤ ((startDay s r).state).reputation ∧
    ((startDay s r).state).reputation ≤ standRepCap s.stand := by
  obtain ⟨v, hv⟩ := dayStateChain_reputation (daySetup s r) (dayAcc s r)
  have hrep : ((startDay s r).state).reputation
      = max 0 (min (standRepCap s.stand) v) := by
    rw [startDay_state, dayAchPhase_reputation, hv, daySetup_s1, applyEvent_stand]
  rw [hrep]
  constructor
  · exact le_max_left 0 _
  · refine max_le ?_ (min_le_left _ _)
    interval_cases hs : s.stand <;> norm_num [standRepCap]

theorem claim_C7_reputation_clamped_witness :
    0 ≤ ((startDay initGameState ⟨fun _ => 1/3, 0⟩).state).reputation ∧
    ((startDay initGameState ⟨fun _ => 1/3, 0⟩).state).reputation
      ≤ standRepCap initGameState.stand :=
  claim_C7_reputation_clamped initGameState ⟨fun _ => 1/3, 0⟩ (by norm_num [initGameState])

/-- Claim C9 (confirmed): when the potential customer count drawn for the day
is zero, the conversion rate is 0 (no division error) and the day still
completes, advancing the day counter. -/
theorem claim_C9_zero_customers (s : GameState) (r : Rng)
    (h : potentialCustomers s r = 0) :
    dayConversionRate ((startDay s r).summary.sold) (potentialCustomers s r) = 0 ∧
    ((startDay s r).state).day = s.day + 1 := by
  constructor
  · rw [h]
    simp [dayConversionRate]
  · rw [startDay_state, dayAchPhase_day, dayStateChain_day, daySetup_s1, applyEvent_day]

/-- Claim C10 (confirmed): a day in which no event triggers leaves
`active_event` unchanged (in particular it is never cleared once set), no
other mutation endpoint touches it, and only reset sets it back to None. -/
theorem claim_C10_event_persistence (s : GameState) (r : Rng) (item t : String)
    (qty : ℤ) (pr lr sr : ℚ) :
    ((rollEvent EVENTS r).1 = none →
      ((startDay s r).state).activeEvent = s.activeEvent) ∧
    (s.activeEvent.isSome = true →
      (((startDay s r).state).activeEvent).isSome = true) ∧
    ((buyItem s item qty).2).activeEvent = s.activeEvent ∧
    ((buyUpgrade s t).2).activeEvent = s.activeEvent ∧
    ((setPrice s pr).2).activeEvent = s.activeEvent ∧
    ((setRecipe s lr sr).2).activeEvent = s.activeEvent ∧
    (resetGame s).activeEvent = none := by
  have hmain : ((startDay s r).state).activeEvent
      = (applyEvent s (rollEvent EVENTS r).1).activeEvent := by
    rw [startDay_state, dayAchPhase_activeEvent, dayStateChain_activeEvent, daySetup_s1]
  refine ⟨?_, ?_, buyItem_activeEvent s item qty, buyUpgrade_activeEvent s t,
    setPrice_activeEvent s pr, rfl, rfl⟩
  · intro h0
    rw [hmain, h0, applyEvent_activeEvent_none]
  · intro hs
    rw [hmain]
    cases hev : (rollEvent EVENTS r).1 with
    | none =>
      rw [applyEvent_activeEvent_none]
      exact hs
    | some e =>
      rw [applyEvent_activeEvent_some]
      rfl

theorem claim_C10_event_persistence_witness :
    ((startDay { initGameState with
        activeEvent := some ⟨"School Bus Arrives", "🚌", EventType.rush, 1/5⟩ }
      ⟨fun _ => 1/2, 0⟩).state).activeEvent
      = ({ initGameState with
          activeEvent := some ⟨"School Bus Arrives", "🚌", EventType.rush, 1/5⟩ }
          : GameState).activeEvent ∧
    (resetGame initGameState).activeEvent = none := by
  have h := claim_C10_event_persistence
    { initGameState with
      activeEvent := some ⟨"School Bus Arrives", "🚌", EventType.rush, 1/5⟩ }
    ⟨fun _ => 1/2, 0⟩ "lemons" "juicer" 1 1 1 1
  exact ⟨h.1 (by norm_num [rollEvent, EVENTS, Rng.next]), h.2.2.2.2.2.2⟩

theorem claim_C9_zero_customers_witness :
    dayConversionRate
      ((startDay { initGameState with reputation := -100 } ⟨fun _ => 1/2, 0⟩).summary.sold)
      (potentialCustomers { initGameState with reputation := -100 } ⟨fun _ => 1/2, 0⟩) = 0 ∧
    ((startDay { initGameState with reputation := -100 } ⟨fun _ => 1/2, 0⟩).state).day
      = ({ initGameState with reputation := -100 } : GameState).day + 1 :=
  claim_C9_zero_customers { initGameState with reputation := -100 } ⟨fun _ => 1/2, 0⟩
    (by norm_num [potentialCustomers, daySetup, rollEvent, EVENTS, Rng.next, randInt, applyEvent,
      weatherMod, standAppealOf, eventCustomerMod, marketingBoostOf, juicerQualityOf, pyInt,
      initGameState])
